import Mathlib

/-!
Shallow embedding of the deepinfra-wrapper proxy service, a Go program that
forwards OpenAI-style chat requests through a rotating pool of public HTTP
proxies.  The embedding follows the current source layout:
`services/proxy.go`, `services/models.go`, `services/constants.go`,
`handlers/chat.go` and `utils` (SendErrorResponse).

Network I/O and wall-clock time are modelled by explicit oracle records
(`NetEnv`, `DispatchEnv`) passed to each function; shared mutable package
state (`workingProxies`, `lastProxyUpdate`, `proxyIndex`, `supportedModels`,
`lastModelsUpdate`) is modelled by explicit state records threaded through
the functions.  Timestamps are seconds as natural numbers.  Concurrency
nondeterminism (channel fan-in order, `rand.Shuffle`) is modelled by list
reordering oracles (`gather`, `shuffle`); theorems that depend on them assume
only that they permute their input.
-/

namespace DeepinfraWrapper

/-- From `services/constants.go`: the attempt ceiling of the chat dispatch
loop, `MaxProxyAttempts = 10`. -/
def MaxProxyAttempts : Nat := 10

/-- Network / nondeterminism oracle for the services package.
`urlParseOk s` models whether `url.Parse s` succeeds; `httpGetStatus p`
models the result of the HTTP GET issued through proxy `p` against the
fixed health endpoint (`none` is a transport error or timeout, `some c` a
response with status code `c`); `proxyListBody` is the body returned by the
proxy-list provider (`none` is a fetch error); `shuffle` models
`rand.Shuffle`; `gather` models the order in which the concurrent probe
results are received from the fan-in channel. -/
structure NetEnv where
  urlParseOk : String → Bool
  httpGetStatus : String → Option Nat
  proxyListBody : Option String
  shuffle : List String → List String
  gather : List String → List String

/-- The shared proxy-pool state of `services/proxy.go`: the package-level
variables `workingProxies`, `lastProxyUpdate` and `proxyIndex`. -/
structure PoolState where
  workingProxies : List String
  lastProxyUpdate : Nat
  proxyIndex : Nat
deriving DecidableEq, Repr

/-- Helper for `stringFields`: scans the character list, accumulating the
current field in reverse. -/
def fieldsAux : List Char → List Char → List String
  | [], acc => if acc.isEmpty then [] else [String.mk acc.reverse]
  | c :: cs, acc =>
    if c.isWhitespace then
      if acc.isEmpty then fieldsAux cs [] else String.mk acc.reverse :: fieldsAux cs []
    else fieldsAux cs (c :: acc)

/-- Model of Go `strings.Fields`: splits around runs of whitespace,
returning the non-empty fields. -/
def stringFields (s : String) : List String :=
  fieldsAux s.data []

/-- From `services/proxy.go` `checkProxy`: returns `false` on an empty
address, on a `url.Parse` failure of `"http://" ++ proxy`, and on a
transport error; otherwise checks the response status against 200. -/
def checkProxy (env : NetEnv) (proxy : String) : Bool :=
  if proxy = "" then
    false
  else if env.urlParseOk ("http://" ++ proxy) = false then
    false
  else
    match env.httpGetStatus proxy with
    | none => false
    | some code => code == 200

/-- From `services/proxy.go` `getProxyList`: fetch the list body, split it
into whitespace-delimited fields, fail on an empty list, then shuffle. -/
def getProxyList (env : NetEnv) : Option (List String) :=
  match env.proxyListBody with
  | none => none
  | some body =>
    let proxies := stringFields body
    if proxies.isEmpty then none
    else some (env.shuffle proxies)

/-- From `services/proxy.go` `UpdateWorkingProxies`: fetch candidates (on
fetch failure the state is left untouched), probe them all (the concurrent
fan-out/fan-in is modelled by `filter` followed by the `gather` reordering
oracle), and only if at least one candidate passed, replace the pool,
update the refresh timestamp and reset the round-robin index; otherwise
leave the state untouched. -/
def UpdateWorkingProxies (env : NetEnv) (now : Nat) (st : PoolState) : PoolState :=
  match getProxyList env with
  | none => st
  | some proxies =>
    let newProxies := env.gather (proxies.filter (fun p => checkProxy env p))
    if 0 < newProxies.length then
      { workingProxies := newProxies, lastProxyUpdate := now, proxyIndex := 0 }
    else
      st

/-- Result of one `GetWorkingProxy` call: the returned address (`""` is the
empty sentinel), the pool state afterwards, and whether a synchronous
refresh (`UpdateWorkingProxies`) was invoked during the call. -/
structure AcquireResult where
  proxy : String
  st : PoolState
  refreshed : Bool
deriving DecidableEq, Repr

/-- The round-robin selection tail of `services/proxy.go` `GetWorkingProxy`
(reached only with a non-empty pool): read the index, advance it modulo the
pool size, and return the element at the saved index, falling back to the
first element if the saved index is out of range. -/
def selectProxy (st : PoolState) (refreshed : Bool) : AcquireResult :=
  let proxyCount := st.workingProxies.length
  let selectedIdx := st.proxyIndex
  let st1 : PoolState := { st with proxyIndex := (st.proxyIndex + 1) % proxyCount }
  if st1.workingProxies.length ≤ selectedIdx then
    if st1.workingProxies.length = 0 then ⟨"", st1, refreshed⟩
    else ⟨st1.workingProxies.headD "", st1, refreshed⟩
  else
    ⟨st1.workingProxies.getD selectedIdx "", st1, refreshed⟩

/-- From `services/proxy.go` `GetWorkingProxy`: if the pool is empty and the
last refresh is more than 2 minutes (120 s) old, run a synchronous
`UpdateWorkingProxies`; if the pool is (still) empty, return the empty
sentinel; otherwise select an address round-robin. -/
def GetWorkingProxy (env : NetEnv) (now : Nat) (st : PoolState) : AcquireResult :=
  if st.workingProxies.length = 0 then
    let refresh :=
      if 120 < now - st.lastProxyUpdate then (UpdateWorkingProxies env now st, true)
      else (st, false)
    if refresh.1.workingProxies.length = 0 then ⟨"", refresh.1, refresh.2⟩
    else selectProxy refresh.1 refresh.2
  else
    selectProxy st false

/-! ### Models-list service (`services/models.go`) -/

/-- The shared models-cache state of `services/models.go`: the package-level
variables `supportedModels` and `lastModelsUpdate`. -/
structure ModelsState where
  supportedModels : List String
  lastModelsUpdate : Nat
deriving DecidableEq, Repr

/-- From `services/models.go` `IsModelSupported`: when the cached list is
empty and the last models update is more than 5 seconds old, spawn a
background `UpdateSupportedModels` (recorded in the second component of the
result) and return `true`; otherwise scan the cached list for the name.
The first component is the returned boolean, the second records whether the
background refresh goroutine was spawned. -/
def IsModelSupported (st : ModelsState) (now : Nat) (model : String) : Bool × Bool :=
  if st.supportedModels.length = 0 ∧ 5 < now - st.lastModelsUpdate then
    (true, true)
  else
    (st.supportedModels.contains model, false)

/-! ### Error responses (`utils`, `SendErrorResponse`) -/

/-- The structured error payload assembled by `utils.SendErrorResponse`:
message, coarse type, machine-readable code and HTTP status. -/
structure ErrorResponse where
  message : String
  etype : String
  code : String
  status : Nat
deriving DecidableEq, Repr

/-- From `utils` `SendErrorResponse`: the code defaults to the error type
when no explicit error code is supplied (Go variadic argument modelled as a
list). -/
def SendErrorResponse (message etype : String) (status : Nat)
    (errorCode : List String) : ErrorResponse :=
  let code := match errorCode with
    | [] => etype
    | c :: _ => c
  ⟨message, etype, code, status⟩

/-! ### Chat request preparation (`handlers/chat.go`, lines 63-74) -/

/-- From `types`: one chat message. -/
structure ChatMessage where
  role : String
  content : String
deriving DecidableEq, Repr

/-- From `types`: the parsed chat completion request body.  Go float64
`Temperature` is modelled as a rational (the handler only compares it to 0
and assigns the literal 0.7); Go int `MaxTokens` as an integer. -/
structure ChatCompletionRequest where
  model : String
  messages : List ChatMessage
  stream : Bool
  temperature : ℚ
  maxTokens : Int
deriving DecidableEq, Repr

/-- From `handlers/chat.go` lines 63-68: a zero temperature is overwritten
with 0.7 and a zero max_tokens with 15000 before the request is forwarded
upstream. -/
def applyChatDefaults (req : ChatCompletionRequest) : ChatCompletionRequest :=
  let req1 := if req.temperature = 0 then { req with temperature := 7 / 10 } else req
  if req1.maxTokens = 0 then { req1 with maxTokens := 15000 } else req1

/-! ### Chat admission control (`handlers/chat.go`, lines 21-35) -/

/-- From `handlers/chat.go` line 21: the capacity of `chatSemaphore`. -/
def chatSemaphoreCapacity : Nat := 100

/-- Observable trace of the entry of `ChatCompletionsHandler`: the early
error response if one was sent, the semaphore occupancy after the admission
step, and whether the handler went on to read the request body and to run
the proxy dispatch loop. -/
structure ChatHandlerTrace where
  response : Option ErrorResponse
  inFlight : Nat
  bodyRead : Bool
  dispatched : Bool
deriving DecidableEq, Repr

/-- From `handlers/chat.go` lines 29-35: the non-blocking semaphore acquire.
`inFlight` is the current semaphore occupancy; when it has reached the
capacity the handler immediately sends the 429 rate-limit response and
returns, before reading the body or touching the proxy pool; otherwise the
occupancy is incremented and the rest of the handler (abstracted as the
continuation `rest`, given the new occupancy) runs. -/
def ChatCompletionsHandlerEntry (inFlight : Nat)
    (rest : Nat → ChatHandlerTrace) : ChatHandlerTrace :=
  if inFlight < chatSemaphoreCapacity then
    rest (inFlight + 1)
  else
    { response := some (SendErrorResponse
        "Server is experiencing high load. Please try again later."
        "rate_limit_error" 429 [])
      inFlight := inFlight
      bodyRead := false
      dispatched := false }

/-! ### The dispatch loop (`handlers/chat.go`, lines 83-166)

The loop `for i := 0; i < services.MaxProxyAttempts && !success; i++` is
embedded structurally on the number of remaining iterations, with the
iteration index `i` carried for the oracles.  The proxy pool interaction
(`GetWorkingProxy`, eviction of failed proxies via `RemoveProxy`) and the
outcome observed by the inner `select` are abstracted into per-iteration
oracles, so the theorems hold for every possible pool behaviour. -/

/-- What the inner `select` of one attempt observes: `ok` is a value on
`resultChan` (upstream success), `fail e` an error on `errChan` (transport
error or non-200 upstream status, after which the proxy has been evicted),
and `slow` the 10-second `time.After` branch (no outcome recorded). -/
inductive AttemptOutcome where
  | ok
  | fail (e : String)
  | slow
deriving DecidableEq, Repr

/-- Per-dispatch oracles: `expired i` is whether `ctx.Done()` is ready at
the top of iteration `i` (the 90-second overall deadline has passed),
`acquire i` the address returned by `services.GetWorkingProxy()` at
iteration `i` (`""` when the pool is empty), and `outcome i` what the
select observes for the attempt issued at iteration `i`. -/
structure DispatchEnv where
  expired : Nat → Bool
  acquire : Nat → String
  outcome : Nat → AttemptOutcome

/-- The per-request dispatch state: `used` is the `usedProxies` set, `each
address already tried in this dispatch; `lastErr` the last recorded error;
`attempts` the trace of proxies through which an upstream request was
actually issued; `iters` counts executed loop-body iterations. -/
structure DispatchState where
  used : List String
  lastErr : Option String
  attempts : List String
  iters : Nat
deriving DecidableEq, Repr

/-- The dispatch state at the start of `ChatCompletionsHandler`. -/
def initDispatchState : DispatchState := ⟨[], none, [], 0⟩

/-- How one dispatch ends: `timeout` is the gateway-timeout response sent
when the deadline fires, `exhausted msg` the 500 response sent after the
loop ends without success, `success` a relayed upstream response. -/
inductive DispatchResult where
  | timeout
  | exhausted (msg : String)
  | success
deriving DecidableEq, Repr

/-- From `handlers/chat.go` lines 158-165: the message of the exhaustion
response, carrying the last recorded error when there is one. -/
def exhaustMsg : Option String → String
  | some e => "Error: " ++ e
  | none => "Unable to process the request after multiple attempts"

/-- From `handlers/chat.go` lines 96-156: the dispatch loop, with `rem`
remaining iterations and `i` the current iteration index.  Each iteration
first checks the deadline, then acquires a proxy (skipping the iteration
when the pool is empty or the address was already tried in this dispatch),
issues the upstream attempt and waits on the result/error/10-second
channels. -/
def dispatchFrom (env : DispatchEnv) : Nat → Nat → DispatchState →
    DispatchResult × DispatchState
  | 0, _, st => (.exhausted (exhaustMsg st.lastErr), st)
  | rem + 1, i, st =>
    let st1 : DispatchState := { st with iters := st.iters + 1 }
    if env.expired i then
      (.timeout, st1)
    else
      let p := env.acquire i
      if p = "" then
        dispatchFrom env rem (i + 1) st1
      else if st1.used.contains p then
        dispatchFrom env rem (i + 1) st1
      else
        let st2 : DispatchState :=
          { st1 with used := p :: st1.used, attempts := st1.attempts ++ [p] }
        match env.outcome i with
        | .ok => (.success, st2)
        | .fail e => dispatchFrom env rem (i + 1) { st2 with lastErr := some e }
        | .slow => dispatchFrom env rem (i + 1) st2

/-- The whole dispatch phase of `ChatCompletionsHandler`: the loop runs for
at most `MaxProxyAttempts` iterations starting from the empty per-request
state. -/
def chatDispatch (env : DispatchEnv) : DispatchResult × DispatchState :=
  dispatchFrom env MaxProxyAttempts 0 initDispatchState

/-! ### The streaming relay (`handlers/chat.go`, `handleStreamResponse`) -/

/-- An upstream streaming response body as seen through `bufio.Scanner`:
the sequence of lines successfully read, then `scanner.Err()` (`none` on a
clean end of stream, `some e` when the scan stopped on a read error). -/
structure UpstreamStream where
  lines : List String
  readErr : Option String
deriving DecidableEq, Repr

/-- From `handlers/chat.go` lines 228-232: a line already carrying the SSE
marker is forwarded as-is, any other line gets the `data: ` marker; each
frame is terminated by a blank line. -/
def frameLine (line : String) : String :=
  if line.startsWith "data: " then line ++ "\n\n"
  else "data: " ++ line ++ "\n\n"

/-- Result of the streaming relay: the SSE frames written to the caller,
how many flushes were performed, the boolean returned to the dispatcher and
the error returned with it. -/
structure StreamOutcome where
  frames : List String
  flushes : Nat
  ok : Bool
  err : Option String
deriving DecidableEq, Repr

/-- The scan loop of `handleStreamResponse` (lines 222-243): empty lines
are skipped; each non-empty line is framed and written, then the writer is
flushed — if the writer does not support flushing the relay fails right
after the first write. -/
def streamLoop (flusherOk : Bool) :
    List String → List String → Nat → List String × Nat × Option String
  | [], frames, flushes => (frames, flushes, none)
  | line :: rest, frames, flushes =>
    if line = "" then
      streamLoop flusherOk rest frames flushes
    else
      let frames1 := frames ++ [frameLine line]
      if flusherOk then
        streamLoop flusherOk rest frames1 (flushes + 1)
      else
        (frames1, flushes, some "response writer does not support flushing")

/-- From `handlers/chat.go` `handleStreamResponse`: run the scan loop over
the upstream lines; after the loop, a scanner read error makes the attempt
fail, otherwise the relay reports success. -/
def handleStreamResponse (flusherOk : Bool) (u : UpstreamStream) : StreamOutcome :=
  match streamLoop flusherOk u.lines [] 0 with
  | (frames, flushes, some e) => ⟨frames, flushes, false, some e⟩
  | (frames, flushes, none) =>
    match u.readErr with
    | some e => ⟨frames, flushes, false, some e⟩
    | none => ⟨frames, flushes, true, none⟩

/-! ### Concrete instances used to evaluate the definitions -/

/-- A network environment in which the proxy-list fetch yields one
candidate, `1.2.3.4:80`, and every probe request fails at transport level
(so zero candidates pass the health probe). -/
def envNoPass : NetEnv :=
  ⟨fun _ => true, fun _ => none, some "1.2.3.4:80", id, id⟩

/-- A pool that currently holds one working proxy, last refreshed at 0. -/
def stOnePool : PoolState := ⟨["5.6.7.8:3128"], 0, 0⟩

/-- A network environment in which the proxy-list fetch yields two
candidates, `a:1` and `b:2`, and only `a:1` answers the probe with 200. -/
def envOnePass : NetEnv :=
  ⟨fun _ => true, fun p => if p = "a:1" then some 200 else none,
    some "a:1 b:2", id, id⟩

/-- A network environment in which every request fails; used to exercise
`GetWorkingProxy` on a fresh empty pool. -/
def envDead : NetEnv := ⟨fun _ => true, fun _ => none, none, id, id⟩

/-- A dispatch environment whose deadline never expires and whose pool
never yields a proxy. -/
def envDrained : DispatchEnv := ⟨fun _ => false, fun _ => "", fun _ => .fail "no"⟩

/-- A dispatch environment whose deadline has already expired at every
iteration. -/
def envExpired : DispatchEnv := ⟨fun _ => true, fun _ => "p", fun _ => .ok⟩

/-- A continuation standing for the rest of the chat handler: it reads the
body and dispatches. -/
def restRuns : Nat → ChatHandlerTrace :=
  fun n => ⟨none, n, true, true⟩

/-- A chat request with non-zero temperature and max_tokens. -/
def reqPlain : ChatCompletionRequest :=
  ⟨"meta-llama/Meta-Llama-3-8B-Instruct", [⟨"user", "hi"⟩], false, 2, 5⟩

/-! ### Theorems -/

/-- C7: the health probe `checkProxy` is total and returns `true` exactly
when an HTTP response is received through the address and its status code
is 200; an empty or unparsable address, a transport error or timeout, and
any non-200 status all yield `false` (totality is structural: the function
is defined for every input). -/
theorem checkProxy_true_iff (env : NetEnv) (p : String) :
    checkProxy env p = true ↔
      p ≠ "" ∧ env.urlParseOk ("http://" ++ p) = true ∧
        env.httpGetStatus p = some 200 := by
  unfold checkProxy
  split_ifs with h1 h2
  · simp [h1]
  · simp [h1, h2]
  · cases hg : env.httpGetStatus p with
    | none => simp [h1, hg]
    | some code =>
      have hok : env.urlParseOk ("http://" ++ p) = true := by
        cases hb : env.urlParseOk ("http://" ++ p)
        · exact absurd hb h2
        · rfl
      simp [h1, hok, hg, beq_iff_eq]

/-- C8: before forwarding, a zero temperature is overwritten with 0.7 and a
zero max_tokens with 15000; a request carrying the zero value is therefore
indistinguishable from one carrying the default, the zero is never
forwarded, and every non-zero value passes through unchanged. -/
theorem chat_defaults_spec (r : ChatCompletionRequest) :
    applyChatDefaults { r with temperature := 0 } =
        applyChatDefaults { r with temperature := 7 / 10 } ∧
      (applyChatDefaults r).temperature ≠ 0 ∧
      (r.temperature ≠ 0 → (applyChatDefaults r).temperature = r.temperature) ∧
      applyChatDefaults { r with maxTokens := 0 } =
        applyChatDefaults { r with maxTokens := 15000 } ∧
      (applyChatDefaults r).maxTokens ≠ 0 ∧
      (r.maxTokens ≠ 0 → (applyChatDefaults r).maxTokens = r.maxTokens) := by
  have h710 : (7 / 10 : ℚ) ≠ 0 := by norm_num
  have h15k : (15000 : Int) ≠ 0 := by norm_num
  refine ⟨?_, ?_, ?_, ?_, ?_, ?_⟩
  · unfold applyChatDefaults
    simp [h710]
  · unfold applyChatDefaults
    by_cases ht : r.temperature = 0 <;> by_cases hm : r.maxTokens = 0 <;>
      simp [ht, hm, h710]
  · intro h
    unfold applyChatDefaults
    by_cases hm : r.maxTokens = 0 <;> simp [h, hm]
  · unfold applyChatDefaults
    by_cases ht : r.temperature = 0 <;> simp [ht, h15k]
  · unfold applyChatDefaults
    by_cases ht : r.temperature = 0 <;> by_cases hm : r.maxTokens = 0 <;>
      simp [ht, hm, h15k]
  · intro h
    unfold applyChatDefaults
    by_cases ht : r.temperature = 0 <;> simp [ht, h]

/-- Witness for C8 at a concrete request with non-zero fields. -/
theorem chat_defaults_spec_witness :
    reqPlain.temperature ≠ 0 ∧ reqPlain.maxTokens ≠ 0 ∧
      (applyChatDefaults reqPlain).temperature = reqPlain.temperature ∧
      (applyChatDefaults reqPlain).maxTokens = reqPlain.maxTokens :=
  ⟨by decide, by decide,
    (chat_defaults_spec reqPlain).2.2.1 (by decide),
    (chat_defaults_spec reqPlain).2.2.2.2.2 (by decide)⟩

/-- C9: the chat endpoint admits at most `chatSemaphoreCapacity = 100`
concurrent requests; a request arriving at full occupancy is answered
immediately with the structured 429 `rate_limit_error` response, without
reading the body, dispatching, or changing the occupancy, while below
capacity the handler simply continues with the occupancy incremented. -/
theorem chat_admission_spec (inFlight : Nat) (rest : Nat → ChatHandlerTrace) :
    (chatSemaphoreCapacity ≤ inFlight →
      ChatCompletionsHandlerEntry inFlight rest =
        { response := some (SendErrorResponse
            "Server is experiencing high load. Please try again later."
            "rate_limit_error" 429 [])
          inFlight := inFlight
          bodyRead := false
          dispatched := false }) ∧
    (inFlight < chatSemaphoreCapacity →
      ChatCompletionsHandlerEntry inFlight rest = rest (inFlight + 1)) := by
  unfold ChatCompletionsHandlerEntry
  constructor
  · intro h
    rw [if_neg (by omega)]
  · intro h
    rw [if_pos h]

/-- Witness for C9 at exactly full occupancy. -/
theorem chat_admission_spec_witness :
    chatSemaphoreCapacity ≤ 100 ∧
      ChatCompletionsHandlerEntry 100 restRuns =
        { response := some (SendErrorResponse
            "Server is experiencing high load. Please try again later."
            "rate_limit_error" 429 [])
          inFlight := 100
          bodyRead := false
          dispatched := false } :=
  ⟨by decide, (chat_admission_spec 100 restRuns).1 (by decide)⟩

/-- C10: the model-support check fails open — with an empty cached list
whose last update is more than 5 seconds old it answers `true` for every
name and spawns a background refresh; in every other situation it answers
exactly membership in the cached list and spawns nothing. -/
theorem isModelSupported_spec (st : ModelsState) (now : Nat) (model : String) :
    (st.supportedModels = [] → 5 < now - st.lastModelsUpdate →
      IsModelSupported st now model = (true, true)) ∧
    (¬(st.supportedModels = [] ∧ 5 < now - st.lastModelsUpdate) →
      IsModelSupported st now model = (st.supportedModels.contains model, false)) := by
  unfold IsModelSupported
  constructor
  · intro hemp hst
    rw [if_pos ⟨by simp [hemp], hst⟩]
  · intro h
    rw [if_neg (by simpa [List.length_eq_zero] using h)]

/-- Witness for C10: an arbitrary unknown name passes validation against an
empty, stale cache. -/
theorem isModelSupported_spec_witness :
    (⟨[], 0⟩ : ModelsState).supportedModels = [] ∧ 5 < 10 - 0 ∧
      IsModelSupported ⟨[], 0⟩ 10 "totally/unknown-model" = (true, true) :=
  ⟨rfl, by decide,
    (isModelSupported_spec ⟨[], 0⟩ 10 "totally/unknown-model").1 rfl (by decide)⟩

/-- The round-robin selection tail passes the refresh flag through
unchanged. -/
theorem selectProxy_refreshed (st : PoolState) (r : Bool) :
    (selectProxy st r).refreshed = r := by
  unfold selectProxy
  dsimp only
  split_ifs <;> rfl

/-- C5: `GetWorkingProxy` on an empty pool whose last refresh is within the
120-second staleness threshold returns the empty sentinel with the state
untouched and without invoking a refresh; and a synchronous refresh happens
during the call exactly when the pool is empty and the last refresh is
older than the threshold. -/
theorem acquire_fresh_empty_spec (env : NetEnv) (now : Nat) (st : PoolState) :
    (st.workingProxies = [] → now - st.lastProxyUpdate ≤ 120 →
      GetWorkingProxy env now st = ⟨"", st, false⟩) ∧
    ((GetWorkingProxy env now st).refreshed = true ↔
      st.workingProxies = [] ∧ 120 < now - st.lastProxyUpdate) := by
  constructor
  · intro hemp hfresh
    unfold GetWorkingProxy
    simp [hemp, Nat.not_lt.mpr hfresh]
  · unfold GetWorkingProxy
    by_cases hemp : st.workingProxies.length = 0
    · by_cases hst : 120 < now - st.lastProxyUpdate
      · simp only [hemp, if_pos rfl, hst, if_pos hst]
        split_ifs <;>
          simp [selectProxy_refreshed, List.length_eq_zero.mp hemp, hst]
      · simp [hemp, hst, List.length_eq_zero.mp hemp]
    · rw [if_neg hemp]
      simp only [selectProxy_refreshed]
      constructor
      · intro h
        exact absurd h (by simp)
      · intro h
        exact absurd (by simp [h.1] : st.workingProxies.length = 0) hemp

/-- Witness for C5: a just-refreshed empty pool yields the sentinel with no
refresh triggered. -/
theorem acquire_fresh_empty_spec_witness :
    (⟨[], 0, 0⟩ : PoolState).workingProxies = [] ∧ 60 - 0 ≤ 120 ∧
      GetWorkingProxy envDead 60 ⟨[], 0, 0⟩ = ⟨"", ⟨[], 0, 0⟩, false⟩ :=
  ⟨rfl, by decide,
    (acquire_fresh_empty_spec envDead 60 ⟨[], 0, 0⟩).1 rfl (by decide)⟩

/-- With a flushable writer, the scan loop frames every non-empty line in
order, flushes once per frame, and reports no write error. -/
theorem streamLoop_flusher_ok (lines frames : List String) (flushes : Nat) :
    streamLoop true lines frames flushes =
      (frames ++ (lines.filter (fun l => l ≠ "")).map frameLine,
        flushes + (lines.filter (fun l => l ≠ "")).length, none) := by
  induction lines generalizing frames flushes with
  | nil => simp [streamLoop]
  | cons line rest ih =>
    by_cases h : line = ""
    · simp [streamLoop, h, ih]
    · simp only [streamLoop, if_neg h, if_pos rfl, ih, List.filter_cons,
        h, decide_not, List.map_cons]
      simp [h]
      omega

/-- C6: with a flushable writer the streaming relay emits exactly one SSE
frame per non-empty upstream line, in upstream order (framed with the
`data: ` marker exactly when it is not already present), flushes once per
frame, skips empty lines, succeeds exactly when the upstream stream ends
cleanly, and propagates a mid-stream read error as the failure of the
attempt. -/
theorem stream_relay_spec (u : UpstreamStream) :
    (handleStreamResponse true u).frames =
        (u.lines.filter (fun l => l ≠ "")).map frameLine ∧
      (handleStreamResponse true u).flushes =
        (handleStreamResponse true u).frames.length ∧
      ((handleStreamResponse true u).ok = true ↔ u.readErr = none) ∧
      (∀ e, u.readErr = some e → (handleStreamResponse true u).err = some e) := by
  unfold handleStreamResponse
  rw [streamLoop_flusher_ok]
  cases hr : u.readErr <;> simp [hr]

/-- Witness for C6: a one-line stream that ends on a read error still
delivers the frame and reports the error. -/
theorem stream_relay_spec_witness :
    (⟨["x"], some "broken pipe"⟩ : UpstreamStream).readErr = some "broken pipe" ∧
      (handleStreamResponse true ⟨["x"], some "broken pipe"⟩).err =
        some "broken pipe" :=
  ⟨rfl, (stream_relay_spec ⟨["x"], some "broken pipe"⟩).2.2.2 "broken pipe" rfl⟩

/-- C1 counterexample: with one candidate that fails the probe (K = 0) and
a non-empty current pool, `UpdateWorkingProxies` leaves the pool and the
refresh timestamp untouched — it does not replace the pool with the empty
set, contrary to the claim. -/
theorem update_keeps_stale_pool_on_zero_pass :
    getProxyList envNoPass = some ["1.2.3.4:80"] ∧
      (["1.2.3.4:80"].filter (fun p => checkProxy envNoPass p)) = [] ∧
      UpdateWorkingProxies envNoPass 100 stOnePool = stOnePool ∧
      stOnePool.workingProxies ≠ [] ∧
      stOnePool.lastProxyUpdate ≠ 100 := by
  refine ⟨rfl, rfl, rfl, by decide, by decide⟩

/-- C1 (amended): when the candidate fetch succeeds, `UpdateWorkingProxies`
replaces the pool with exactly the candidates that passed the probe
(order-independent) and updates the refresh timestamp — but only when at
least one candidate passed; when none passed, the pool and the timestamp
are left unchanged.  The hypothesis on `gather` says only that the channel
fan-in delivers a permutation of the passing candidates. -/
theorem refresh_updates_pool_amended (env : NetEnv) (now : Nat) (st : PoolState)
    (candidates : List String)
    (hget : getProxyList env = some candidates)
    (hgather : List.Perm (env.gather (candidates.filter (fun p => checkProxy env p)))
      (candidates.filter (fun p => checkProxy env p))) :
    (candidates.filter (fun p => checkProxy env p) = [] →
      UpdateWorkingProxies env now st = st) ∧
    (candidates.filter (fun p => checkProxy env p) ≠ [] →
      List.Perm (UpdateWorkingProxies env now st).workingProxies
          (candidates.filter (fun p => checkProxy env p)) ∧
        (UpdateWorkingProxies env now st).lastProxyUpdate = now ∧
        (UpdateWorkingProxies env now st).proxyIndex = 0) := by
  unfold UpdateWorkingProxies
  rw [hget]
  dsimp only
  constructor
  · intro hempty
    rw [hempty] at hgather
    have hg0 : env.gather [] = [] := List.Perm.eq_nil hgather
    rw [hempty, hg0]
    simp
  · intro hne
    have hlen : 0 < (env.gather (candidates.filter (fun p => checkProxy env p))).length := by
      rw [hgather.length_eq]
      exact List.length_pos.mpr hne
    simp only [if_pos hlen]
    exact ⟨hgather, trivial, trivial⟩

/-- Witness for the amended C1: two candidates of which one passes; the
pool is replaced by exactly that candidate and the timestamp is updated. -/
theorem refresh_updates_pool_amended_witness :
    getProxyList envOnePass = some ["a:1", "b:2"] ∧
      (["a:1", "b:2"].filter (fun p => checkProxy envOnePass p)) = ["a:1"] ∧
      (List.Perm (UpdateWorkingProxies envOnePass 77 stOnePool).workingProxies
          (["a:1", "b:2"].filter (fun p => checkProxy envOnePass p)) ∧
        (UpdateWorkingProxies envOnePass 77 stOnePool).lastProxyUpdate = 77 ∧
        (UpdateWorkingProxies envOnePass 77 stOnePool).proxyIndex = 0) :=
  ⟨rfl, rfl,
    (refresh_updates_pool_amended envOnePass 77 stOnePool ["a:1", "b:2"]
      rfl (List.Perm.refl _)).2 (by decide)⟩

/-- Invariant lemma for C2: the trace of proxies through which an upstream
attempt was issued stays duplicate-free, because every attempted proxy is
recorded in `usedProxies` and recorded proxies are skipped. -/
theorem dispatchFrom_attempts_nodup_aux (env : DispatchEnv) (rem : Nat) :
    ∀ (i : Nat) (st : DispatchState), st.attempts.Nodup →
      (∀ p, p ∈ st.attempts → p ∈ st.used) →
      ((dispatchFrom env rem i st).2).attempts.Nodup := by
  induction rem with
  | zero =>
    intro i st hnd _
    exact hnd
  | succ rem ih =>
    intro i st hnd hsub
    unfold dispatchFrom
    dsimp only
    by_cases hexp : env.expired i = true
    · rw [if_pos hexp]
      exact hnd
    · rw [if_neg hexp]
      by_cases hp : env.acquire i = ""
      · rw [if_pos hp]
        exact ih (i + 1) _ hnd hsub
      · rw [if_neg hp]
        by_cases hused :
            ({ st with iters := st.iters + 1 } : DispatchState).used.contains
              (env.acquire i) = true
        · rw [if_pos hused]
          exact ih (i + 1) _ hnd hsub
        · rw [if_neg hused]
          have hmem : env.acquire i ∉ st.used := by
            intro hin
            exact hused (List.elem_eq_true_of_mem hin)
          have hnotatt : env.acquire i ∉ st.attempts := fun hin => hmem (hsub _ hin)
          have hnd2 : (st.attempts ++ [env.acquire i]).Nodup := by
            rw [List.nodup_append_comm]
            exact List.nodup_cons.mpr ⟨hnotatt, hnd⟩
          have hsub2 : ∀ p, p ∈ st.attempts ++ [env.acquire i] →
              p ∈ env.acquire i :: st.used := by
            intro p hpin
            rcases List.mem_append.mp hpin with hl | hr
            · exact List.mem_cons_of_mem _ (hsub _ hl)
            · simp only [List.mem_singleton] at hr
              rw [hr]
              exact List.mem_cons_self _ _
          cases ho : env.outcome i with
          | ok =>
            simp only [ho]
            exact hnd2
          | fail e =>
            simp only [ho]
            exact ih (i + 1) _ hnd2 hsub2
          | slow =>
            simp only [ho]
            exact ih (i + 1) _ hnd2 hsub2

/-- C2: within one dispatch of one inbound chat request, no proxy address
is used for more than one upstream attempt — whatever the deadline, pool
and upstream behaviour, the trace of attempted proxies has no
duplicates. -/
theorem dispatch_never_retries_proxy (env : DispatchEnv) :
    ((chatDispatch env).2).attempts.Nodup := by
  unfold chatDispatch
  exact dispatchFrom_attempts_nodup_aux env MaxProxyAttempts 0 initDispatchState
    (by simp [initDispatchState]) (by simp [initDispatchState])

/-- Induction lemma for C3: with the deadline never firing and no attempt
succeeding, the loop runs all its remaining iterations and ends in the
exhaustion response built from the last recorded error. -/
theorem dispatchFrom_exhausts_aux (env : DispatchEnv)
    (hexp : ∀ j, env.expired j = false)
    (hout : ∀ j, env.outcome j ≠ AttemptOutcome.ok) (rem : Nat) :
    ∀ (i : Nat) (st : DispatchState),
      (dispatchFrom env rem i st).1 =
          DispatchResult.exhausted (exhaustMsg ((dispatchFrom env rem i st).2).lastErr) ∧
        ((dispatchFrom env rem i st).2).iters = st.iters + rem := by
  induction rem with
  | zero =>
    intro i st
    exact ⟨rfl, rfl⟩
  | succ rem ih =>
    intro i st
    unfold dispatchFrom
    dsimp only
    rw [if_neg (by simp [hexp i])]
    by_cases hp : env.acquire i = ""
    · rw [if_pos hp]
      have h := ih (i + 1) { st with iters := st.iters + 1 }
      refine ⟨h.1, ?_⟩
      rw [h.2]
      dsimp only
      omega
    · rw [if_neg hp]
      by_cases hused :
          ({ st with iters := st.iters + 1 } : DispatchState).used.contains
            (env.acquire i) = true
      · rw [if_pos hused]
        have h := ih (i + 1) { st with iters := st.iters + 1 }
        refine ⟨h.1, ?_⟩
        rw [h.2]
        dsimp only
        omega
      · rw [if_neg hused]
        cases ho : env.outcome i with
        | ok => exact absurd ho (hout i)
        | fail e =>
          simp only [ho]
          refine ⟨(ih (i + 1) _).1, ?_⟩
          rw [(ih (i + 1) _).2]
          dsimp only
          omega
        | slow =>
          simp only [ho]
          refine ⟨(ih (i + 1) _).1, ?_⟩
          rw [(ih (i + 1) _).2]
          dsimp only
          omega

/-- C3: when the deadline never expires and no attempt succeeds, the chat
dispatch loop executes exactly `MaxProxyAttempts` iterations — neither
fewer nor more — and then fails with the exhaustion response, whose
message carries the last recorded upstream/transport error when one was
recorded. -/
theorem dispatch_exhaustion_spec (env : DispatchEnv)
    (hexp : ∀ j, env.expired j = false)
    (hout : ∀ j, env.outcome j ≠ AttemptOutcome.ok) :
    (chatDispatch env).1 =
        DispatchResult.exhausted (exhaustMsg ((chatDispatch env).2).lastErr) ∧
      ((chatDispatch env).2).iters = MaxProxyAttempts ∧
      (∀ e, ((chatDispatch env).2).lastErr = some e →
        (chatDispatch env).1 = DispatchResult.exhausted ("Error: " ++ e)) := by
  unfold chatDispatch
  have h := dispatchFrom_exhausts_aux env hexp hout MaxProxyAttempts 0 initDispatchState
  refine ⟨h.1, by rw [h.2]; simp [initDispatchState], ?_⟩
  intro e he
  rw [h.1, he]
  rfl

/-- Witness for C3: a pool that never yields a proxy exhausts all
`MaxProxyAttempts` iterations. -/
theorem dispatch_exhaustion_spec_witness :
    (chatDispatch envDrained).1 =
        DispatchResult.exhausted (exhaustMsg ((chatDispatch envDrained).2).lastErr) ∧
      ((chatDispatch envDrained).2).iters = MaxProxyAttempts := by
  have h := dispatch_exhaustion_spec envDrained (fun j => rfl) (fun _ hh => nomatch hh)
  exact ⟨h.1, h.2.1⟩

/-- C4: the deadline is checked at the top of every loop iteration; at any
iteration where it has expired, the loop returns the timeout result at once
with the per-request state untouched (in particular no new upstream attempt
is issued and nothing is added to the attempt trace). -/
theorem dispatch_expired_timeout (env : DispatchEnv) (rem i : Nat)
    (st : DispatchState) (hexp : env.expired i = true) :
    dispatchFrom env (rem + 1) i st =
      (DispatchResult.timeout, { st with iters := st.iters + 1 }) := by
  unfold dispatchFrom
  dsimp only
  rw [if_pos hexp]

/-- Witness for C4 at a concrete expired environment. -/
theorem dispatch_expired_timeout_witness :
    envExpired.expired 0 = true ∧
      dispatchFrom envExpired (9 + 1) 0 initDispatchState =
        (DispatchResult.timeout,
          { initDispatchState with iters := initDispatchState.iters + 1 }) :=
  ⟨rfl, dispatch_expired_timeout envExpired 9 0 initDispatchState rfl⟩

end DeepinfraWrapper
